import Mathlib

/-
Verification of the installation-queue core of Program_Installer_Pro.

The Python sources are shallowly embedded as Lean definitions:
pure functions become Lean functions, the SQLite store becomes an
explicit record of tables (lists of rows), subprocess execution and
the network become oracle parameters, and process exit codes become
integers.  Field and function names follow the Python source
(src/installer.py, src/database.py, src/gui.py, src/scanner.py,
src/downloader.py); leading underscores of private Python helpers
are dropped.
-/

/-- Result of an installation attempt (class InstallResult in
src/installer.py).  Timestamps and logging are omitted; they carry no
logic. -/
structure InstallResult where
  installer_path : String
  exit_code : Int
  success : Bool
  restart_required : Bool
  error_message : Option String
deriving Repr, DecidableEq

/-- The known error-message map in InstallResult.from_exit_code
(the dict error_messages, with dict.get semantics). -/
def error_messages_get (code : Int) : Option String :=
  if code = 1602 then some "Installation cancelled by user"
  else if code = 1618 then some "Another installation is already in progress"
  else if code = 1619 then some "Installation package could not be opened"
  else if code = 1620 then some "Installation package is invalid"
  else if code = 1622 then some "Error opening installation log file"
  else if code = 1625 then some "Installation prohibited by system policy"
  else if code = 1638 then some "Another version is already installed"
  else none

/-- InstallResult.from_exit_code (src/installer.py lines 37-62):
classify an installer process exit code. -/
def InstallResult.from_exit_code (installer_path : String) (exit_code : Int) : InstallResult :=
  let success := exit_code = 0 ∨ exit_code = 3010 ∨ exit_code = 1641
  let restart_required := exit_code = 3010 ∨ exit_code = 1641
  let error_message :=
    if success then none
    else some ((error_messages_get exit_code).getD
      ("Installation failed with exit code " ++ toString exit_code))
  { installer_path := installer_path
    exit_code := exit_code
    success := success
    restart_required := restart_required
    error_message := error_message }

/-- InstallationExecutor._run_msi (src/installer.py lines 130-147), on
Windows.  The subprocess call is abstracted by the oracle `outcome`:
`.ok code` is a completed child process with that return code, `.error e`
is an exception raised while running it (for example TimeoutExpired),
which propagates to the caller.  The argument list (silent switches)
does not influence the returned value and is omitted. -/
def run_msi (path : String) (wait : Bool) (outcome : Except String Int) :
    Except String InstallResult :=
  if wait then
    outcome.map (fun code => InstallResult.from_exit_code path code)
  else
    outcome.map (fun _ => ⟨path, 0, true, false, none⟩)

/-- InstallationExecutor._run_exe (src/installer.py lines 149-167), on
Windows; result-wise identical to the msi path. -/
def run_exe (path : String) (wait : Bool) (outcome : Except String Int) :
    Except String InstallResult :=
  if wait then
    outcome.map (fun code => InstallResult.from_exit_code path code)
  else
    outcome.map (fun _ => ⟨path, 0, true, false, none⟩)

/-- InstallationExecutor.run_installer (src/installer.py lines 97-128) on
Windows.  `path_exists` abstracts Path(installer_path).exists(),
`file_type` is path.suffix.lower(), and `outcome` abstracts the spawned
process as in run_msi.  The try/except wrapper is the match on
Except: an exception escaping _run_msi or _run_exe is caught and turned
into a failure InstallResult carrying str(e). -/
def run_installer (path_exists : Bool) (file_type : String) (wait : Bool)
    (outcome : Except String Int) (installer_path : String) : InstallResult :=
  if path_exists = false then
    ⟨installer_path, -1, false, false,
      some ("Installer file not found: " ++ installer_path)⟩
  else
    match (if file_type = ".msi" then some (run_msi installer_path wait outcome)
           else if file_type = ".exe" then some (run_exe installer_path wait outcome)
           else none) with
    | some (Except.ok r) => r
    | some (Except.error e) => ⟨installer_path, -1, false, false, some e⟩
    | none => ⟨installer_path, -1, false, false,
        some ("Unsupported installer type: " ++ file_type)⟩

/-
ProgramMatcher (src/scanner.py lines 254-319).  The regular-expression
transformations of _normalize_name are embedded as character-list
passes over ASCII text (the Python patterns use unicode classes, the
repository data is ASCII).  Python floats are modelled as rationals.
-/

/-- One pass of re.sub(r'\(.*?\)', '', name): repeatedly delete the
leftmost span from a '(' to the first following ')' (non-greedy match);
a '(' with no later ')' matches nothing and is kept.  `inParen` buffers
the characters seen since an open parenthesis, in reverse. -/
def drop_parens_go : Bool → List Char → List Char → List Char
  | false, _, [] => []
  | false, _, c :: rest =>
      if c = '(' then drop_parens_go true [] rest
      else c :: drop_parens_go false [] rest
  | true, buf, [] => '(' :: buf.reverse
  | true, buf, c :: rest =>
      if c = ')' then drop_parens_go false [] rest
      else drop_parens_go true (c :: buf) rest

def drop_parens (l : List Char) : List Char :=
  drop_parens_go false [] l

/-- Scanner state for re.sub(r'\d+(\.\d+)*', '', name): `out` is
outside a match, `num` has just consumed digits of a match, `numDot`
has consumed digits and then a dot that extends the match only when a
digit follows. -/
inductive NumSt
  | out
  | num
  | numDot
deriving Repr, DecidableEq

/-- One pass of re.sub(r'\d+(\.\d+)*', '', name): delete every maximal
run of digits together with the dot-digit groups that follow it. -/
def strip_nums_go : NumSt → List Char → List Char
  | NumSt.out, [] => []
  | NumSt.out, c :: rest =>
      if c.isDigit then strip_nums_go NumSt.num rest
      else c :: strip_nums_go NumSt.out rest
  | NumSt.num, [] => []
  | NumSt.num, c :: rest =>
      if c.isDigit then strip_nums_go NumSt.num rest
      else if c = '.' then strip_nums_go NumSt.numDot rest
      else c :: strip_nums_go NumSt.out rest
  | NumSt.numDot, [] => ['.']
  | NumSt.numDot, c :: rest =>
      if c.isDigit then strip_nums_go NumSt.num rest
      else '.' :: c :: strip_nums_go NumSt.out rest

def strip_nums (l : List Char) : List Char :=
  strip_nums_go NumSt.out l

/-- A word character for re.sub(r'[^\w\s]', ' ', name): alphanumeric or
underscore. -/
def is_word_char (c : Char) : Bool :=
  c.isAlphanum || c = '_'

/-- Python str.lower() for the ASCII names the matcher sees. -/
def py_lower (s : String) : String :=
  String.mk (s.toList.map Char.toLower)

/-- name.split() of Python: maximal whitespace-free runs; `cur` holds
the characters of the current run in reverse. -/
def split_ws_go : List Char → List Char → List String
  | cur, [] => if cur.isEmpty then [] else [String.mk cur.reverse]
  | cur, c :: rest =>
      if c.isWhitespace then
        if cur.isEmpty then split_ws_go [] rest
        else String.mk cur.reverse :: split_ws_go [] rest
      else split_ws_go (c :: cur) rest

/-- name.split() of Python: whitespace-separated tokens, empties
dropped. -/
def py_split (s : String) : List String :=
  split_ws_go [] s.toList

/-- Python str.join with a single space. -/
def join_spaces : List String → String
  | [] => ""
  | [t] => t
  | t :: rest => t ++ " " ++ join_spaces rest

/-- Python str.strip(): drop leading and trailing whitespace. -/
def py_strip (s : String) : String :=
  String.mk (((s.toList.dropWhile Char.isWhitespace).reverse.dropWhile
    Char.isWhitespace).reverse)

/-- ProgramMatcher._normalize_name (src/scanner.py lines 290-297):
lower-case, delete parenthesised spans, delete version numbers, replace
remaining punctuation by spaces, collapse whitespace, strip. -/
def normalize_name (name : String) : String :=
  let s1 := (py_lower name).toList
  let s2 := drop_parens s1
  let s3 := strip_nums s2
  let s4 := s3.map (fun c => if is_word_char c || c.isWhitespace then c else ' ')
  py_strip (join_spaces (py_split (String.mk s4)))

/-- Python substring containment `pat in hay` restricted to a leading
occurrence. -/
def leads_with : List Char → List Char → Bool
  | [], _ => true
  | _ :: _, [] => false
  | p :: ps, c :: cs => p = c && leads_with ps cs

/-- Python substring containment `pat in hay`. -/
def has_sub (pat : List Char) : List Char → Bool
  | [] => leads_with pat []
  | c :: cs => leads_with pat (c :: cs) || has_sub pat cs

/-- The whitespace-token set of a name (set(name.split()) in Python). -/
def token_set (s : String) : Finset String :=
  (py_split s).toFinset

/-- ProgramMatcher._calculate_match_score (src/scanner.py lines
299-319): 1.0 on equality, 0.9 on substring containment, otherwise the
Jaccard index of the token sets, as a rational. -/
def calculate_match_score (name1 name2 : String) : ℚ :=
  if name1 = "" ∨ name2 = "" then 0
  else if name1 = name2 then 1
  else if has_sub name1.toList name2.toList || has_sub name2.toList name1.toList then 9/10
  else
    let words1 := token_set name1
    let words2 := token_set name2
    if words1 = ∅ ∨ words2 = ∅ then 0
    else ((words1 ∩ words2).card : ℚ) / ((words1 ∪ words2).card : ℚ)

/-- An installed-program candidate as the matcher sees it (a dict with
nullable name fields in the source). -/
structure ScannedProgram where
  name : Option String
  display_name : Option String
  version : Option String
deriving Repr, DecidableEq

/-- An installer row as the matcher sees it. -/
structure InstallerRow where
  id : Nat
  detected_name : Option String
deriving Repr, DecidableEq

/-- Python `a or b or ''` over nullable strings: the first value that
is neither None nor the empty string, else the empty string. -/
def first_truthy (a b : Option String) : String :=
  match a with
  | some s => if s ≠ "" then s else (match b with
      | some t => if t ≠ "" then t else ""
      | none => "")
  | none => match b with
      | some t => if t ≠ "" then t else ""
      | none => ""

/-- The loop body of ProgramMatcher._find_best_match (src/scanner.py
lines 278-286): keep the candidate when its score strictly improves the
best so far and reaches the 0.6 acceptance threshold. -/
def fbm_step (program_name_clean : String) (acc : Option InstallerRow × ℚ)
    (installer : InstallerRow) : Option InstallerRow × ℚ :=
  let installer_name := py_lower (installer.detected_name.getD "")
  let installer_name_clean := normalize_name installer_name
  let score := calculate_match_score program_name_clean installer_name_clean
  if score > acc.2 ∧ score ≥ 6/10 then (some installer, score) else acc

/-- ProgramMatcher._find_best_match (src/scanner.py lines 270-288):
fold over the installers starting from no match and best score 0. -/
def find_best_match (program : ScannedProgram) (installers : List InstallerRow) :
    Option InstallerRow :=
  let program_name := py_lower (first_truthy program.display_name program.name)
  let program_name_clean := normalize_name program_name
  (installers.foldl (fbm_step program_name_clean)
    ((none : Option InstallerRow), (0 : ℚ))).1

/-- ProgramMatcher.match (src/scanner.py lines 260-268). -/
def matcher_match (programs : List ScannedProgram) (installers : List InstallerRow) :
    List (ScannedProgram × Option InstallerRow) :=
  programs.map (fun program => (program, find_best_match program installers))

/-
The persistence store (src/database.py) and the queue runner
(src/gui.py).  Tables are lists of rows; AUTOINCREMENT is an explicit
counter; timestamps are omitted (no logic reads them).
-/

/-- One row of the installation_queue table joined with its installer
(the shape returned by get_queue / get_pending_queue_items).  The id is
the primary key. -/
structure QueueRow where
  id : Nat
  installer_id : Nat
  status : String
  exit_code : Option Int
  error_message : Option String
  restart_required : Bool
  queue_position : Nat
  file_path : String
deriving Repr, DecidableEq, BEq

/-- One row of the session_state table.  The schema constrains the id
column by CHECK (id = 1) and PRIMARY KEY. -/
structure SessionRow where
  row_id : Nat
  pending_installations : List Nat
  current_position : Nat
  is_resuming : Bool
deriving Repr, DecidableEq

/-- One row of the installed_programs table (the columns the claims
read; the schema defaults are has_installer 0, is_hidden 0,
manually_linked 0, parent_program_id NULL). -/
structure ProgramRow where
  id : Nat
  name : Option String
  display_name : Option String
  version : Option String
  matched_installer_id : Option Nat
  has_installer : Bool
  is_hidden : Bool
  manually_linked : Bool
  parent_program_id : Option Nat
deriving Repr, DecidableEq

/-- The SQLite store of class Database (src/database.py), restricted to
the tables the claims touch.  next_program_id is the AUTOINCREMENT
counter of installed_programs. -/
structure Database where
  queue : List QueueRow
  session : List SessionRow
  programs : List ProgramRow
  next_program_id : Nat
deriving Repr, DecidableEq

/-- A fresh store right after _create_tables. -/
def Database.empty : Database := ⟨[], [], [], 1⟩

/-- Database.update_queue_status (src/database.py lines 339-358): an
installing transition writes only the status (and started_at); every
other transition writes status, exit_code, error_message,
restart_required (and completed_at). -/
def Database.update_queue_status (db : Database) (queue_id : Nat) (status : String)
    (exit_code : Option Int) (error_message : Option String)
    (restart_required : Bool) : Database :=
  { db with queue := db.queue.map (fun r =>
      if r.id = queue_id then
        if status = "installing" then { r with status := status }
        else { r with
                 status := status
                 exit_code := exit_code
                 error_message := error_message
                 restart_required := restart_required }
      else r) }

/-- Ordering of queue rows by position (the ORDER BY of the pending
query). -/
def by_queue_position (a b : QueueRow) : Prop :=
  a.queue_position ≤ b.queue_position

instance : DecidableRel by_queue_position :=
  fun a b => Nat.decLe a.queue_position b.queue_position

instance : IsTotal QueueRow by_queue_position :=
  ⟨fun a b => Nat.le_total a.queue_position b.queue_position⟩

instance : IsTrans QueueRow by_queue_position :=
  ⟨fun _ _ _ h1 h2 => Nat.le_trans h1 h2⟩

/-- Database.get_pending_queue_items (src/database.py lines 328-337):
SELECT ... WHERE status IN ('pending', 'needs_restart', 'interrupted')
ORDER BY queue_position. -/
def Database.get_pending_queue_items (db : Database) : List QueueRow :=
  List.insertionSort by_queue_position
    (db.queue.filter (fun q =>
      q.status == "pending" || q.status == "needs_restart" || q.status == "interrupted"))

/-- Database.save_session_state (src/database.py lines 365-371):
INSERT OR REPLACE with id fixed to 1 and is_resuming set; the row with
id 1 is replaced whole. -/
def Database.save_session_state (db : Database) (pending_ids : List Nat)
    (current_position : Nat) : Database :=
  { db with session :=
      (db.session.filter (fun r => r.row_id != 1)) ++ [⟨1, pending_ids, current_position, true⟩] }

/-- Database.get_session_state (src/database.py lines 373-381):
SELECT * FROM session_state WHERE id = 1. -/
def Database.get_session_state (db : Database) : Option SessionRow :=
  (db.session.filter (fun r => r.row_id == 1)).head?

/-- Database.clear_session_state (src/database.py lines 383-386). -/
def Database.clear_session_state (db : Database) : Database :=
  { db with session := [] }

/-- Database.add_to_queue (src/database.py lines 305-316) with an
explicit id and position (the SQL derives position as max + 1 when the
caller passes none; the claims always enqueue explicitly). -/
def Database.add_to_queue (db : Database) (row : QueueRow) : Database :=
  { db with queue := db.queue ++ [{ row with status := "pending" }] }

/-- Database.clear_queue (src/database.py lines 360-363). -/
def Database.clear_queue (db : Database) : Database :=
  { db with queue := [] }

/-- Database.clear_installed_programs (src/database.py lines 300-303):
DELETE FROM installed_programs.  The AUTOINCREMENT counter survives. -/
def Database.clear_installed_programs (db : Database) : Database :=
  { db with programs := [] }

/-- Database.add_installed_program (src/database.py lines 200-210):
INSERT with the schema defaults for the annotation columns; returns the
fresh row id. -/
def Database.add_installed_program (db : Database) (name display_name version : Option String) :
    Nat × Database :=
  (db.next_program_id,
   { db with
       programs := db.programs ++
         [⟨db.next_program_id, name, display_name, version, none, false, false, false, none⟩]
       next_program_id := db.next_program_id + 1 })

/-- Database.match_program_to_installer (src/database.py lines
291-298). -/
def Database.match_program_to_installer (db : Database) (program_id installer_id : Nat) :
    Database :=
  { db with programs := db.programs.map (fun p =>
      if p.id = program_id then
        { p with matched_installer_id := some installer_id, has_installer := true }
      else p) }

/-
The queue runner: install_loop inside
InstallerManagerGUI._start_installation (src/gui.py lines 821-870).
UI refreshes and message boxes have no store effect and are omitted;
self.executor.run_installer(file_path) is abstracted by the oracle
`run` from installer paths to results.
-/

/-- The for-loop of install_loop over the remaining items.  fullQueue
is the list loaded once at the start (the Python closure variable
`queue`); the session state saved on a restart is computed from it:
pending_ids keeps every loaded id except the current one, and the
resume position is queue.index(item) + 1. -/
def install_loop_aux (run : String → InstallResult) (fullQueue : List QueueRow) :
    List QueueRow → Database → Database
  | [], db => db.clear_session_state
  | item :: rest, db =>
      let db1 := db.update_queue_status item.id "installing" none none false
      let result := run item.file_path
      if result.restart_required then
        let db2 := db1.update_queue_status item.id "needs_restart"
          (some result.exit_code) none true
        let pending_ids := (fullQueue.filter (fun i => i.id != item.id)).map (fun i => i.id)
        db2.save_session_state pending_ids (fullQueue.indexOf item + 1)
      else if result.success then
        install_loop_aux run fullQueue rest
          (db1.update_queue_status item.id "completed" (some result.exit_code) none false)
      else
        install_loop_aux run fullQueue rest
          (db1.update_queue_status item.id "failed" (some result.exit_code)
            result.error_message false)

/-- InstallerManagerGUI._start_installation (src/gui.py lines 821-870):
load the pending items and drive the loop; with nothing pending it only
shows a message and returns.  The elevation check is a caller
precondition (spec section 4.2) and the thread spawn is the same
single loop. -/
def start_installation (run : String → InstallResult) (db : Database) : Database :=
  let queue := db.get_pending_queue_items
  if queue.isEmpty then db
  else install_loop_aux run queue queue db

/-- The per-program body of the scan() closure in
InstallerManagerGUI._scan_installed (src/gui.py lines 681-693):
reinsert one scanned program and record its matched installer. -/
def rescan_step (acc : Database) (pm : ScannedProgram × Option InstallerRow) :
    Database :=
  let inserted := acc.add_installed_program pm.1.name pm.1.display_name pm.1.version
  match pm.2 with
  | some installer => inserted.2.match_program_to_installer inserted.1 installer.id
  | none => inserted.2

/-- The store effect of the scan() closure in
InstallerManagerGUI._scan_installed (src/gui.py lines 668-707): clear
the installed_programs table, then reinsert every scanned program and
record its matched installer.  `installers` stands for
self.db.get_all_installers(). -/
def scan_rescan (db : Database) (programs : List ScannedProgram)
    (installers : List InstallerRow) : Database :=
  (matcher_match programs installers).foldl rescan_step db.clear_installed_programs

/-- The stores reachable through the Database API and the queue runner,
starting from a fresh store.  These are all the operations of the
source that write the store. -/
inductive Reachable : Database → Prop
  | init : Reachable Database.empty
  | add_to_queue (db : Database) (row : QueueRow) :
      Reachable db → Reachable (db.add_to_queue row)
  | update_queue_status (db : Database) (queue_id : Nat) (status : String)
      (exit_code : Option Int) (error_message : Option String) (restart_required : Bool) :
      Reachable db →
      Reachable (db.update_queue_status queue_id status exit_code error_message restart_required)
  | clear_queue (db : Database) : Reachable db → Reachable db.clear_queue
  | save_session_state (db : Database) (pending_ids : List Nat) (current_position : Nat) :
      Reachable db → Reachable (db.save_session_state pending_ids current_position)
  | clear_session_state (db : Database) : Reachable db → Reachable db.clear_session_state
  | clear_installed_programs (db : Database) :
      Reachable db → Reachable db.clear_installed_programs
  | add_installed_program (db : Database) (name display_name version : Option String) :
      Reachable db → Reachable (db.add_installed_program name display_name version).2
  | match_program_to_installer (db : Database) (program_id installer_id : Nat) :
      Reachable db → Reachable (db.match_program_to_installer program_id installer_id)
  | start_installation (db : Database) (run : String → InstallResult) :
      Reachable db → Reachable (start_installation run db)
  | scan_rescan (db : Database) (programs : List ScannedProgram)
      (installers : List InstallerRow) :
      Reachable db → Reachable (scan_rescan db programs installers)

/-- The shapes the session_state table can take under its schema
(PRIMARY KEY with CHECK id = 1) and its two writers: empty, or exactly
one snapshot row with id 1 and is_resuming set. -/
def session_ok (db : Database) : Prop :=
  db.session = [] ∨ ∃ ids pos, db.session = [⟨1, ids, pos, true⟩]

/-
DownloadManager.download (src/downloader.py lines 34-110).  The
filesystem is a finite map from paths to byte lists; the HTTP response
is an oracle: either a request exception, or the sequence of loop
iterations, where each iteration delivers a chunk, observes the
cooperative cancellation flag set, or raises.
-/

/-- A filesystem: association of paths to file contents. -/
structure FS where
  files : List (String × List Nat)
deriving Repr, DecidableEq

def FS.read (fs : FS) (p : String) : Option (List Nat) :=
  (fs.files.find? (fun e => e.1 == p)).map (fun e => e.2)

def FS.write_set (fs : FS) (p : String) (content : List Nat) : FS :=
  ⟨(fs.files.filter (fun e => e.1 != p)) ++ [(p, content)]⟩

def FS.unlink (fs : FS) (p : String) : FS :=
  ⟨fs.files.filter (fun e => e.1 != p)⟩

/-- temp_path.rename(file_path): the destination takes the content of
the source, the source disappears. -/
def FS.rename (fs : FS) (src dst : String) : FS :=
  match fs.read src with
  | some content => (fs.unlink src).write_set dst content
  | none => fs

/-- One iteration of the chunk loop: a delivered chunk, the
cancellation flag observed set, or an exception raised mid-stream. -/
inductive DlStep
  | chunk (data : List Nat)
  | cancel
  | fail (msg : String)
deriving Repr, DecidableEq

/-- The chunk loop of DownloadManager.download (src/downloader.py lines
67-85) followed by the unlink-and-rename epilogue: on cancellation the
temp file is unlinked and None returned; on an exception the partial
temp file stays and None is returned (the except blocks only report);
when the stream ends, an existing destination is unlinked and the temp
file renamed onto it. -/
def download_go (temp_path file_path : String) :
    List DlStep → FS → FS × Option String
  | [], fs =>
      let fs1 := if (fs.read file_path).isSome then fs.unlink file_path else fs
      (fs1.rename temp_path file_path, some file_path)
  | DlStep.cancel :: _, fs => (fs.unlink temp_path, none)
  | DlStep.fail _ :: _, fs => (fs, none)
  | DlStep.chunk data :: rest, fs =>
      if data.isEmpty then download_go temp_path file_path rest fs
      else download_go temp_path file_path rest
        (fs.write_set temp_path ((fs.read temp_path).getD [] ++ data))

/-- DownloadManager.download (src/downloader.py lines 34-110) for a
resolved filename: temp_path is the destination path with '.tmp'
appended to its suffix; open(temp_path, 'wb') truncates it before the
loop; a request exception (response is .error) is caught before
anything is written. -/
def download (fs : FS) (file_path : String)
    (response : Except String (List DlStep)) : FS × Option String :=
  let temp_path := file_path ++ ".tmp"
  match response with
  | Except.error _ => (fs, none)
  | Except.ok steps => download_go temp_path file_path steps (fs.write_set temp_path [])

/-
Concrete fixtures used by the closed theorems below: a queue of three
pending items, executor oracles that make item 2 require a restart or
fail, a store with an item left mid-install, and a store with an
annotated installed program.
-/

/-- A pending queue row with id, position and path. -/
def qrow (i : Nat) (st : String) (pos : Nat) (fp : String) : QueueRow :=
  ⟨i, i, st, none, none, false, pos, fp⟩

/-- Three pending items at positions 1, 2, 3. -/
def db_three : Database :=
  ⟨[qrow 1 "pending" 1 "a.exe", qrow 2 "pending" 2 "b.exe", qrow 3 "pending" 3 "c.exe"],
   [], [], 1⟩

/-- Executor oracle: item 2 exits 3010 (restart required), others 0. -/
def run_b3010 : String → InstallResult := fun p =>
  if p == "b.exe" then InstallResult.from_exit_code p 3010
  else InstallResult.from_exit_code p 0

/-- Executor oracle: item 2 exits 1 (plain failure), others 0. -/
def run_bfail : String → InstallResult := fun p =>
  if p == "b.exe" then InstallResult.from_exit_code p 1
  else InstallResult.from_exit_code p 0

/-- A store whose only queue item was left with status installing by a
crash mid-install. -/
def db_installing : Database :=
  ⟨[qrow 1 "installing" 1 "a.exe"], [], [], 1⟩

/-- A single pending queue item. -/
def db_one : Database :=
  ⟨[qrow 1 "pending" 1 "a.exe"], [], [], 1⟩

/-- A store holding one installed program carrying all three user
annotation values. -/
def db_annotated : Database :=
  ⟨[], [],
   [⟨1, some "7-Zip", some "7-Zip", some "23.01", some 9, true, true, true, some 5⟩], 2⟩

/-- The scanner output matching the annotated program by name and
version. -/
def rescanned_programs : List ScannedProgram :=
  [⟨some "7-Zip", some "7-Zip", some "23.01"⟩]

/-- The payload a loop iteration wrote: the chunk bytes, or nothing for
a cancellation or failure iteration. -/
def chunk_data : DlStep → List Nat
  | DlStep.chunk d => d
  | _ => []

/-
Theorems.  Each claim of the specification is settled by one theorem
below (with a witness when the theorem carries hypotheses, and a closed
counterexample where the claim fails on the source).
-/

/-- C1: for every integer exit code, from_exit_code reports success
exactly on 0, 3010 and 1641, restart_required exactly on 3010 and 1641,
maps each of the seven known failure codes to its documented text, and
maps every other nonzero code to the generic failure text. -/
theorem C1_from_exit_code_classification :
    ∀ (p : String) (code : Int),
      ((InstallResult.from_exit_code p code).success = true ↔
        (code = 0 ∨ code = 3010 ∨ code = 1641))
      ∧ ((InstallResult.from_exit_code p code).restart_required = true ↔
        (code = 3010 ∨ code = 1641))
      ∧ (InstallResult.from_exit_code p 1602).error_message =
          some "Installation cancelled by user"
      ∧ (InstallResult.from_exit_code p 1618).error_message =
          some "Another installation is already in progress"
      ∧ (InstallResult.from_exit_code p 1619).error_message =
          some "Installation package could not be opened"
      ∧ (InstallResult.from_exit_code p 1620).error_message =
          some "Installation package is invalid"
      ∧ (InstallResult.from_exit_code p 1622).error_message =
          some "Error opening installation log file"
      ∧ (InstallResult.from_exit_code p 1625).error_message =
          some "Installation prohibited by system policy"
      ∧ (InstallResult.from_exit_code p 1638).error_message =
          some "Another version is already installed"
      ∧ (code ≠ 0 → code ≠ 3010 → code ≠ 1641 → code ≠ 1602 → code ≠ 1618 →
         code ≠ 1619 → code ≠ 1620 → code ≠ 1622 → code ≠ 1625 → code ≠ 1638 →
         (InstallResult.from_exit_code p code).error_message =
           some ("Installation failed with exit code " ++ toString code)) := by
  intro p code
  refine ⟨?_, ?_, rfl, rfl, rfl, rfl, rfl, rfl, rfl, ?_⟩
  · simp [InstallResult.from_exit_code]
  · simp [InstallResult.from_exit_code]
  · intro h0 h3010 h1641 h1602 h1618 h1619 h1620 h1622 h1625 h1638
    simp [InstallResult.from_exit_code, error_messages_get,
      h0, h3010, h1641, h1602, h1618, h1619, h1620, h1622, h1625, h1638]

/-- Witness for C1: exit code 5 is unknown and nonzero, so the generic
text names it. -/
theorem C1_from_exit_code_classification_witness :
    (InstallResult.from_exit_code "x.exe" 5).error_message =
      some "Installation failed with exit code 5" :=
  (C1_from_exit_code_classification "x.exe" 5).2.2.2.2.2.2.2.2.2
    (by decide) (by decide) (by decide) (by decide) (by decide)
    (by decide) (by decide) (by decide) (by decide) (by decide)

/-- C7: run_installer is a total function of its oracles, so every call
yields a structured InstallResult: a missing path gives a
file-not-found failure, an existing file with an unsupported extension
gives an unsupported-type failure, and an exception raised while
executing an msi or exe (a timeout included) is caught and returned as
a failure carrying the raw message. -/
theorem C7_run_installer_structured_outcome :
    ∀ (file_type : String) (wait : Bool) (outcome : Except String Int) (p : String),
      (run_installer false file_type wait outcome p =
        ⟨p, -1, false, false, some ("Installer file not found: " ++ p)⟩)
      ∧ (file_type ≠ ".msi" → file_type ≠ ".exe" →
          run_installer true file_type wait outcome p =
            ⟨p, -1, false, false, some ("Unsupported installer type: " ++ file_type)⟩)
      ∧ (∀ e, outcome = Except.error e →
          (file_type = ".msi" ∨ file_type = ".exe") →
          run_installer true file_type wait outcome p =
            ⟨p, -1, false, false, some e⟩) := by
  intro file_type wait outcome p
  refine ⟨rfl, ?_, ?_⟩
  · intro h1 h2
    simp [run_installer, h1, h2]
  · intro e he hft
    rcases hft with h | h <;> subst h <;> subst he <;>
      cases wait <;> simp [run_installer, run_msi, run_exe, Except.map]

/-- Witness for C7: an unsupported extension and a caught timeout
exception. -/
theorem C7_run_installer_structured_outcome_witness :
    (run_installer true ".txt" true (Except.ok 0) "f.txt" =
      ⟨"f.txt", -1, false, false, some "Unsupported installer type: .txt"⟩)
    ∧ (run_installer true ".msi" true (Except.error "TimeoutExpired") "f.msi" =
      ⟨"f.msi", -1, false, false, some "TimeoutExpired"⟩) :=
  ⟨(C7_run_installer_structured_outcome ".txt" true (Except.ok 0) "f.txt").2.1
      (by decide) (by decide),
   (C7_run_installer_structured_outcome ".msi" true
      (Except.error "TimeoutExpired") "f.msi").2.2 "TimeoutExpired" rfl (Or.inl rfl)⟩

/-- C3: a nonzero, non-restart exit code does not abort the run: the
loop marks the item failed, persisting its exit code and error message,
and recurses into the next item; concretely, a queue of three items
whose middle item exits 1 ends with statuses completed, failed,
completed in one run. -/
theorem C3_failure_isolation :
    (∀ (run : String → InstallResult) (fullQ rest : List QueueRow)
       (item : QueueRow) (db : Database),
        (run item.file_path).restart_required = false →
        (run item.file_path).success = false →
        install_loop_aux run fullQ (item :: rest) db =
          install_loop_aux run fullQ rest
            ((db.update_queue_status item.id "installing" none none false).update_queue_status
              item.id "failed" (some (run item.file_path).exit_code)
              (run item.file_path).error_message false))
    ∧ ((start_installation run_bfail db_three).queue.map
        (fun r => (r.id, r.status, r.exit_code, r.error_message)) =
      [(1, "completed", some 0, none),
       (2, "failed", some 1, some "Installation failed with exit code 1"),
       (3, "completed", some 0, none)]) := by
  constructor
  · intro run fullQ rest item db h1 h2
    simp [install_loop_aux, h1, h2]
  · rfl

/-- Witness for C3: item 2 of the three-item fixture fails and the loop
continues. -/
theorem C3_failure_isolation_witness :
    install_loop_aux run_bfail db_three.queue (db_three.queue.drop 1)
        (db_three.update_queue_status 1 "completed" (some 0) none false) =
      install_loop_aux run_bfail db_three.queue (db_three.queue.drop 2)
        ((((db_three.update_queue_status 1 "completed" (some 0) none
            false).update_queue_status 2 "installing" none none
            false).update_queue_status 2 "failed" (some 1)
            (some "Installation failed with exit code 1")) false) := by
  have h := (C3_failure_isolation).1 run_bfail db_three.queue
    (db_three.queue.drop 2) (qrow 2 "pending" 2 "b.exe")
    (db_three.update_queue_status 1 "completed" (some 0) none false)
    (by decide) (by decide)
  exact h

/-- C2 counterexample: running the three-item fixture where item 2
exits 3010 stores a SessionState whose pending list is [1, 3], although
item 1 is already completed; the list of identifiers not yet processed
is [3], so the stored list is not that list. -/
theorem C2_session_pending_counterexample :
    ((start_installation run_b3010 db_three).get_session_state =
      some ⟨1, [1, 3], 2, true⟩)
    ∧ ((start_installation run_b3010 db_three).queue.map (fun r => (r.id, r.status)) =
      [(1, "completed"), (2, "needs_restart"), (3, "pending")])
    ∧ ¬ ([1, 3] = [(3 : Nat)]) :=
  ⟨rfl, rfl, by decide⟩

/-- C2 (amended): on a restart-required result the loop marks the item
needs_restart persisting its exit code and restart flag, persists a
SessionState holding the identifiers of every item of the loaded queue
except the current one (items completed or failed earlier in the run
included) with resume index one past the current item, and halts
without starting any subsequent item; in the three-item fixture with
item 2 exiting 3010, item 1 ends completed, item 2 needs_restart,
item 3 still pending, and the SessionState lists [1, 3] with resume
position 2. -/
theorem C2_restart_halts_and_snapshots :
    (∀ (run : String → InstallResult) (fullQ rest : List QueueRow)
       (item : QueueRow) (db : Database),
        (run item.file_path).restart_required = true →
        install_loop_aux run fullQ (item :: rest) db =
          ((db.update_queue_status item.id "installing" none none false).update_queue_status
              item.id "needs_restart" (some (run item.file_path).exit_code) none
              true).save_session_state
            ((fullQ.filter (fun i => i.id != item.id)).map (fun i => i.id))
            (fullQ.indexOf item + 1))
    ∧ ((start_installation run_b3010 db_three).queue.map
         (fun r => (r.id, r.status, r.exit_code, r.restart_required)) =
       [(1, "completed", some 0, false),
        (2, "needs_restart", some 3010, true),
        (3, "pending", none, false)])
    ∧ ((start_installation run_b3010 db_three).get_session_state =
        some ⟨1, [1, 3], 2, true⟩) := by
  refine ⟨?_, rfl, rfl⟩
  intro run fullQ rest item db h
  simp [install_loop_aux, h]

/-- Witness for C2: the halting step at item 2 of the three-item
fixture. -/
theorem C2_restart_halts_and_snapshots_witness :
    install_loop_aux run_b3010 db_three.queue (db_three.queue.drop 1)
        (db_three.update_queue_status 1 "completed" (some 0) none false) =
      ((((db_three.update_queue_status 1 "completed" (some 0) none
          false).update_queue_status 2 "installing" none none
          false).update_queue_status 2 "needs_restart" (some 3010) none
          true).save_session_state [1, 3] 2) := by
  have h := (C2_restart_halts_and_snapshots).1 run_b3010 db_three.queue
    (db_three.queue.drop 2) (qrow 2 "pending" 2 "b.exe")
    (db_three.update_queue_status 1 "completed" (some 0) none false)
    (by decide)
  exact h

/-- C4: the source leaves a crashed mid-install item with status
installing: the pending query excludes that status instead of
reclassifying it as interrupted, so loading never turns installing into
interrupted and a resumed run does not execute the item (it is not
treated as completed either; it is simply invisible to resumption).
This evaluates the source at the failing input of the claim. -/
theorem C4_installing_left_unreclassified :
    (db_installing.get_pending_queue_items = [])
    ∧ (db_installing.queue.map (fun r => r.status) = ["installing"])
    ∧ (∀ run : String → InstallResult,
        start_installation run db_installing = db_installing) :=
  ⟨rfl, rfl, fun _ => rfl⟩

/-- C5: resumption re-derives the work list from the store: the pending
query returns exactly the rows whose status is pending, needs_restart
or interrupted, in ascending queue_position order; completed and failed
rows are never among them; and with a single pending item the resumed
run starts, and here completes, exactly at that item. -/
theorem C5_resume_requeries_store :
    (∀ (db : Database) (r : QueueRow),
        r ∈ db.get_pending_queue_items ↔
          (r ∈ db.queue ∧
            (r.status = "pending" ∨ r.status = "needs_restart" ∨
             r.status = "interrupted")))
    ∧ (∀ db : Database, (db.get_pending_queue_items).Sorted by_queue_position)
    ∧ (∀ (db : Database) (r : QueueRow),
        r.status = "completed" ∨ r.status = "failed" →
        r ∉ db.get_pending_queue_items)
    ∧ (∀ (run : String → InstallResult) (db : Database) (item : QueueRow),
        db.get_pending_queue_items = [item] →
        (run item.file_path).restart_required = false →
        (run item.file_path).success = true →
        start_installation run db =
          ((db.update_queue_status item.id "installing" none none
              false).update_queue_status item.id "completed"
              (some (run item.file_path).exit_code) none false).clear_session_state) := by
  have hmem : ∀ (db : Database) (r : QueueRow),
      r ∈ db.get_pending_queue_items ↔
        (r ∈ db.queue ∧
          (r.status = "pending" ∨ r.status = "needs_restart" ∨
           r.status = "interrupted")) := by
    intro db r
    unfold Database.get_pending_queue_items
    rw [List.mem_insertionSort, List.mem_filter]
    simp [or_assoc]
  refine ⟨hmem, ?_, ?_, ?_⟩
  · intro db
    exact List.sorted_insertionSort by_queue_position _
  · intro db r h hr
    rcases (hmem db r).1 hr with ⟨_, hst⟩
    rcases h with h | h <;> rw [h] at hst <;>
      rcases hst with h2 | h2 | h2 <;> exact absurd h2 (by decide)
  · intro run db item hq h1 h2
    simp only [start_installation, hq]
    simp [install_loop_aux, h1, h2]

/-- Witness for C5: the single-item fixture is run exactly at its item,
and a completed row is not in the pending query. -/
theorem C5_resume_requeries_store_witness :
    (start_installation run_bfail db_one =
      ((db_one.update_queue_status 1 "installing" none none
          false).update_queue_status 1 "completed" (some 0) none
          false).clear_session_state)
    ∧ (qrow 1 "completed" 1 "a.exe") ∉ db_one.get_pending_queue_items :=
  ⟨(C5_resume_requeries_store).2.2.2 run_bfail db_one (qrow 1 "pending" 1 "a.exe")
      rfl (by decide) (by decide),
   (C5_resume_requeries_store).2.2.1 db_one (qrow 1 "completed" 1 "a.exe")
      (Or.inl rfl)⟩

/-- Saving over a well-shaped session table leaves exactly the new
snapshot row. -/
theorem session_ok_save (db : Database) (ids : List Nat) (pos : Nat)
    (h : session_ok db) :
    (db.save_session_state ids pos).session = [⟨1, ids, pos, true⟩] := by
  rcases h with h | ⟨ids0, pos0, h⟩ <;> simp [Database.save_session_state, h]

/-- The queue loop preserves the session-table shape: it only ever
saves a fresh snapshot or clears the table. -/
theorem install_loop_aux_session_ok (run : String → InstallResult)
    (fullQ : List QueueRow) :
    ∀ (l : List QueueRow) (db : Database), session_ok db →
      session_ok (install_loop_aux run fullQ l db) := by
  intro l
  induction l with
  | nil =>
    intro db _
    exact Or.inl rfl
  | cons item rest ih =>
    intro db h
    simp only [install_loop_aux]
    split
    · exact Or.inr ⟨_, _, session_ok_save _ _ _ h⟩
    · split
      · exact ih _ h
      · exact ih _ h

/-- rescan_step does not touch the session table. -/
theorem rescan_step_session (acc : Database) (pm : ScannedProgram × Option InstallerRow) :
    (rescan_step acc pm).session = acc.session := by
  rcases pm with ⟨p, m⟩
  cases m <;> rfl

/-- A full rescan does not touch the session table. -/
theorem scan_rescan_session (db : Database) (programs : List ScannedProgram)
    (installers : List InstallerRow) :
    (scan_rescan db programs installers).session = db.session := by
  unfold scan_rescan
  generalize matcher_match programs installers = ms
  have hgen : ∀ (ms2 : List (ScannedProgram × Option InstallerRow)) (acc : Database),
      (ms2.foldl rescan_step acc).session = acc.session := by
    intro ms2
    induction ms2 with
    | nil => intro acc; rfl
    | cons pm rest ih =>
      intro acc
      rw [List.foldl_cons, ih, rescan_step_session]
  exact hgen ms db.clear_installed_programs

/-- Every store reachable through the API has a well-shaped session
table. -/
theorem reachable_session_ok : ∀ db : Database, Reachable db → session_ok db := by
  intro db h
  induction h with
  | init => exact Or.inl rfl
  | add_to_queue db row _ ih => exact ih
  | update_queue_status db qid st ec em rr _ ih => exact ih
  | clear_queue db _ ih => exact ih
  | save_session_state db ids pos _ ih =>
    exact Or.inr ⟨_, _, session_ok_save db ids pos ih⟩
  | clear_session_state db _ ih => exact Or.inl rfl
  | clear_installed_programs db _ ih => exact ih
  | add_installed_program db n d v _ ih => exact ih
  | match_program_to_installer db p i _ ih => exact ih
  | start_installation db run _ ih =>
    have heq : start_installation run db =
        if (db.get_pending_queue_items).isEmpty then db
        else install_loop_aux run db.get_pending_queue_items
          db.get_pending_queue_items db := rfl
    rw [heq]
    split
    · exact ih
    · exact install_loop_aux_session_ok run _ _ db ih
  | scan_rescan db programs installers _ ih =>
    have heq := scan_rescan_session db programs installers
    unfold session_ok
    rw [heq]
    exact ih

/-- C6: in every store reachable through the API at most one
SessionState row exists, and every save is a full-replacement snapshot:
immediately after a save the stored state is exactly the saved pending
list and resume position, whatever the table held before. -/
theorem C6_session_snapshot_unique :
    (∀ db : Database, Reachable db → db.session.length ≤ 1)
    ∧ (∀ (db : Database) (ids : List Nat) (pos : Nat),
        (db.save_session_state ids pos).get_session_state =
          some ⟨1, ids, pos, true⟩) := by
  constructor
  · intro db h
    rcases reachable_session_ok db h with h1 | ⟨ids, pos, h1⟩ <;> simp [h1]
  · intro db ids pos
    have hnil : ∀ s : List SessionRow,
        (s.filter (fun r => r.row_id != 1)).filter (fun r => r.row_id == 1) = [] := by
      intro s
      induction s with
      | nil => rfl
      | cons r t ih => by_cases h : r.row_id = 1 <;> simp [h, ih]
    show ((db.session.filter (fun r => r.row_id != 1) ++
        [(⟨1, ids, pos, true⟩ : SessionRow)]).filter (fun r => r.row_id == 1)).head? =
      some ⟨1, ids, pos, true⟩
    rw [List.filter_append, hnil db.session]
    rfl

/-- Witness for C6: a snapshot saved over a fresh store is the only
row. -/
theorem C6_session_snapshot_unique_witness :
    (Database.empty.save_session_state [3] 2).session.length ≤ 1 :=
  C6_session_snapshot_unique.1 (Database.empty.save_session_state [3] 2)
    (Reachable.save_session_state Database.empty [3] 2 Reachable.init)

/-- C8: evaluation of the source at the failing input of the claim: a
full rescan (clear_installed_programs followed by reinsertion) resets
the stored values is_hidden, manually_linked and parent_program_id of
the program with the same name and version to the schema defaults,
losing the user state the claim requires to survive. -/
theorem C8_rescan_drops_user_state :
    (db_annotated.programs.map (fun p =>
        (p.name, p.version, p.is_hidden, p.manually_linked, p.parent_program_id)) =
      [(some "7-Zip", some "23.01", true, true, some 5)])
    ∧ ((scan_rescan db_annotated rescanned_programs []).programs.map (fun p =>
        (p.name, p.version, p.is_hidden, p.manually_linked, p.parent_program_id)) =
      [(some "7-Zip", some "23.01", false, false, none)]) :=
  ⟨rfl, rfl⟩

/-- C9 counterexample: the pair of the claim normalizes to "zip" and
"zip__x_setup" (underscores are word characters, so they are neither
removed nor split on): the two token sets are disjoint, not
overlapping; the 0.9 score comes from the substring rule instead. -/
theorem C9_token_overlap_counterexample :
    (normalize_name "7-Zip 23.01 (x64)" = "zip")
    ∧ (normalize_name "7zip_23.01_x64_setup" = "zip__x_setup")
    ∧ (token_set (normalize_name "7-Zip 23.01 (x64)") ∩
        token_set (normalize_name "7zip_23.01_x64_setup") = ∅)
    ∧ (calculate_match_score (normalize_name "7-Zip 23.01 (x64)")
        (normalize_name "7zip_23.01_x64_setup") = 9/10) := by
  refine ⟨by decide, by decide, by decide, rfl⟩

/-- One step of the best-match fold either keeps the accumulator or
switches to the current installer with a score at or above the
threshold. -/
theorem fbm_step_spec (pnc : String) (acc : Option InstallerRow × ℚ) (i : InstallerRow) :
    fbm_step pnc acc i = acc ∨
    (fbm_step pnc acc i =
        (some i, calculate_match_score pnc
          (normalize_name (py_lower (i.detected_name.getD ""))))
      ∧ calculate_match_score pnc
          (normalize_name (py_lower (i.detected_name.getD ""))) ≥ 6/10) := by
  simp only [fbm_step]
  split
  case isTrue h => exact Or.inr ⟨rfl, h.2⟩
  case isFalse h => exact Or.inl rfl

/-- Fold invariant: any installer the best-match fold settles on scored
at least the 0.6 threshold against the normalized program name. -/
theorem fbm_fold_threshold (pnc : String) :
    ∀ (installers : List InstallerRow) (acc : Option InstallerRow × ℚ),
      (∀ m : InstallerRow, acc.1 = some m →
        acc.2 ≥ 6/10 ∧
        calculate_match_score pnc
          (normalize_name (py_lower (m.detected_name.getD ""))) = acc.2) →
      ∀ m : InstallerRow, (installers.foldl (fbm_step pnc) acc).1 = some m →
        calculate_match_score pnc
          (normalize_name (py_lower (m.detected_name.getD ""))) ≥ 6/10 := by
  intro installers
  induction installers with
  | nil =>
    intro acc hacc m hm
    rcases hacc m hm with ⟨h1, h2⟩
    rw [h2]
    exact h1
  | cons i rest ih =>
    intro acc hacc m hm
    rw [List.foldl_cons] at hm
    refine ih (fbm_step pnc acc i) ?_ m hm
    intro m2 hm2
    rcases fbm_step_spec pnc acc i with h | ⟨heq, hge⟩
    · rw [h] at hm2 ⊢
      exact hacc m2 hm2
    · rw [heq] at hm2 ⊢
      obtain rfl : i = m2 := Option.some.inj hm2
      exact ⟨hge, rfl⟩

/-- The concrete pair of the claim scores by the substring rule. -/
theorem score_of_claim_pair :
    calculate_match_score (normalize_name "7-Zip 23.01 (x64)")
      (normalize_name "7zip_23.01_x64_setup") = 9/10 := rfl

/-- C9 (amended): the matcher pairs each program with at most one
installer (an optional best match), accepts a match only at score 0.6
or above, scores normalized names 1.0 on equality, 0.9 when one
contains the other as a substring, and otherwise by the Jaccard index
of their token sets; the pair "7-Zip 23.01 (x64)" and
"7zip_23.01_x64_setup" normalizes to names where one is a substring of
the other (their token sets are disjoint) and scores 0.9, at or above
the 0.6 threshold. -/
theorem C9_matcher_threshold_and_scoring :
    (∀ programs installers,
        (matcher_match programs installers).map Prod.fst = programs)
    ∧ (∀ (n1 n2 : String), n1 ≠ "" → n2 ≠ "" → n1 = n2 →
        calculate_match_score n1 n2 = 1)
    ∧ (∀ (n1 n2 : String), n1 ≠ "" → n2 ≠ "" → n1 ≠ n2 →
        (has_sub n1.toList n2.toList || has_sub n2.toList n1.toList) = true →
        calculate_match_score n1 n2 = 9/10)
    ∧ (∀ (n1 n2 : String), n1 ≠ "" → n2 ≠ "" → n1 ≠ n2 →
        (has_sub n1.toList n2.toList || has_sub n2.toList n1.toList) = false →
        ¬ token_set n1 = ∅ → ¬ token_set n2 = ∅ →
        calculate_match_score n1 n2 =
          ((token_set n1 ∩ token_set n2).card : ℚ) /
            ((token_set n1 ∪ token_set n2).card : ℚ))
    ∧ (∀ (program : ScannedProgram) (installers : List InstallerRow) (m : InstallerRow),
        find_best_match program installers = some m →
        calculate_match_score
          (normalize_name (py_lower (first_truthy program.display_name program.name)))
          (normalize_name (py_lower (m.detected_name.getD ""))) ≥ 6/10)
    ∧ (has_sub (normalize_name "7-Zip 23.01 (x64)").toList
          (normalize_name "7zip_23.01_x64_setup").toList = true
        ∧ calculate_match_score (normalize_name "7-Zip 23.01 (x64)")
            (normalize_name "7zip_23.01_x64_setup") ≥ 6/10) := by
  refine ⟨?_, ?_, ?_, ?_, ?_, by decide, ?_⟩
  · intro programs installers
    induction programs with
    | nil => rfl
    | cons p t ih => simpa [matcher_match] using ih
  · intro n1 n2 h1 h2 heq
    unfold calculate_match_score
    rw [if_neg (by simp [h1, h2]), if_pos heq]
  · intro n1 n2 h1 h2 hne hsub
    unfold calculate_match_score
    rw [if_neg (by simp [h1, h2]), if_neg hne, if_pos hsub]
  · intro n1 n2 h1 h2 hne hsub hw1 hw2
    unfold calculate_match_score
    rw [if_neg (by simp [h1, h2]), if_neg hne,
      if_neg (by simp only [hsub]; exact Bool.false_ne_true)]
    simp [hw1, hw2]
  · intro program installers m h
    have h2 : (installers.foldl
        (fbm_step (normalize_name (py_lower
          (first_truthy program.display_name program.name))))
        ((none : Option InstallerRow), (0 : ℚ))).1 = some m := h
    exact fbm_fold_threshold
      (normalize_name (py_lower (first_truthy program.display_name program.name)))
      installers ((none : Option InstallerRow), (0 : ℚ))
      (fun m2 hm2 => Option.noConfusion hm2) m h2
  · rw [score_of_claim_pair]
    norm_num

/-- Witness for C9: the substring rule scores the concrete normalized
pair 0.9, and the equality rule scores an equal pair 1. -/
theorem C9_matcher_threshold_and_scoring_witness :
    (calculate_match_score "zip" "zip__x_setup" = 9/10)
    ∧ (calculate_match_score "zipper" "zipper" = 1) :=
  ⟨(C9_matcher_threshold_and_scoring).2.2.1 "zip" "zip__x_setup"
      (by decide) (by decide) (by decide) (by decide),
   (C9_matcher_threshold_and_scoring).2.1 "zipper" "zipper"
      (by decide) (by decide) rfl⟩

/-- Looking for a path among entries filtered to other paths finds
nothing. -/
theorem find_after_filter_ne (l : List (String × List Nat)) (p : String) :
    (l.filter (fun e => e.1 != p)).find? (fun e => e.1 == p) = none := by
  rw [List.find?_eq_none]
  intro x hx
  rcases List.mem_filter.1 hx with ⟨_, hne⟩
  simp at hne ⊢
  exact hne

/-- Filtering out one path does not change the lookup of another. -/
theorem find_filter_other (l : List (String × List Nat)) (p q : String) (h : p ≠ q) :
    (l.filter (fun e => e.1 != q)).find? (fun e => e.1 == p) =
      l.find? (fun e => e.1 == p) := by
  induction l with
  | nil => rfl
  | cons e t ih =>
    by_cases he : e.1 = q
    · simp [List.filter_cons, he, Ne.symm h, ih]
    · by_cases hep : e.1 = p
      · simp [List.filter_cons, he, hep, h]
      · simp [List.filter_cons, he, hep, ih]

theorem read_write_set_self (fs : FS) (p : String) (c : List Nat) :
    (fs.write_set p c).read p = some c := by
  unfold FS.read FS.write_set
  rw [List.find?_append, find_after_filter_ne]
  simp

theorem read_write_set_ne (fs : FS) (p q : String) (c : List Nat) (h : p ≠ q) :
    (fs.write_set q c).read p = fs.read p := by
  unfold FS.read FS.write_set
  rw [List.find?_append]
  have h1 : List.find? (fun e => e.1 == p) [(q, c)] = none := by
    simp [Ne.symm h]
  rw [h1, find_filter_other fs.files p q h]
  simp

theorem read_unlink_self (fs : FS) (p : String) : (fs.unlink p).read p = none := by
  unfold FS.read FS.unlink
  rw [find_after_filter_ne]
  rfl

theorem read_unlink_ne (fs : FS) (p q : String) (h : p ≠ q) :
    (fs.unlink q).read p = fs.read p := by
  unfold FS.read FS.unlink
  rw [find_filter_other fs.files p q h]

/-- The temporary path differs from the destination path. -/
theorem temp_ne_dest (fp : String) : fp ++ ".tmp" ≠ fp := by
  intro h
  have hlen := congrArg String.length h
  rw [String.length_append] at hlen
  have h4 : ".tmp".length = 4 := rfl
  rw [h4] at hlen
  omega

/-- Any failing run of the chunk loop leaves the destination entry of
the filesystem untouched. -/
theorem download_go_fail_dest (fp temp : String) (hne : temp ≠ fp) :
    ∀ (steps : List DlStep) (fs : FS),
      (download_go temp fp steps fs).2 = none →
      (download_go temp fp steps fs).1.read fp = fs.read fp := by
  intro steps
  induction steps with
  | nil =>
    intro fs h
    exact absurd h (by simp [download_go])
  | cons st rest ih =>
    intro fs h
    cases st with
    | cancel => exact read_unlink_ne fs fp temp (Ne.symm hne)
    | fail msg => rfl
    | chunk data =>
      by_cases hd : data.isEmpty
      · have heq : download_go temp fp (DlStep.chunk data :: rest) fs =
            download_go temp fp rest fs := by
          simp [download_go, hd]
        rw [heq] at h ⊢
        exact ih fs h
      · have heq : download_go temp fp (DlStep.chunk data :: rest) fs =
            download_go temp fp rest
              (fs.write_set temp ((fs.read temp).getD [] ++ data)) := by
          simp [download_go, hd]
        rw [heq] at h ⊢
        rw [ih _ h]
        exact read_write_set_ne _ fp temp _ (Ne.symm hne)

/-- A run of the chunk loop that observes the cancellation flag removes
the temporary file and returns no path. -/
theorem download_go_cancel (fp temp : String) :
    ∀ (pre rest : List DlStep) (fs : FS),
      (∀ s ∈ pre, ∃ d, s = DlStep.chunk d) →
      ((download_go temp fp (pre ++ DlStep.cancel :: rest) fs).1.read temp = none
        ∧ (download_go temp fp (pre ++ DlStep.cancel :: rest) fs).2 = none) := by
  intro pre
  induction pre with
  | nil =>
    intro rest fs _
    exact ⟨read_unlink_self fs temp, rfl⟩
  | cons st pre2 ih =>
    intro rest fs hall
    obtain ⟨d, rfl⟩ := hall st (List.mem_cons_self st pre2)
    have hall2 : ∀ s ∈ pre2, ∃ d2, s = DlStep.chunk d2 :=
      fun s hs => hall s (List.mem_cons_of_mem _ hs)
    by_cases hd : d.isEmpty
    · have heq : download_go temp fp
          ((DlStep.chunk d :: pre2) ++ DlStep.cancel :: rest) fs =
            download_go temp fp (pre2 ++ DlStep.cancel :: rest) fs := by
        simp [download_go, hd]
      rw [heq]
      exact ih rest fs hall2
    · have heq : download_go temp fp
          ((DlStep.chunk d :: pre2) ++ DlStep.cancel :: rest) fs =
            download_go temp fp (pre2 ++ DlStep.cancel :: rest)
              (fs.write_set temp ((fs.read temp).getD [] ++ d)) := by
        simp [download_go, hd]
      rw [heq]
      exact ih rest _ hall2

/-- A run of the chunk loop in which every iteration delivers a chunk
renames the temporary file onto the destination, whose content is then
the accumulated bytes followed by all delivered chunks. -/
theorem download_go_success (fp temp : String) (hne : temp ≠ fp) :
    ∀ (steps : List DlStep) (fs : FS) (acc : List Nat),
      (∀ s ∈ steps, ∃ d, s = DlStep.chunk d) →
      fs.read temp = some acc →
      ((download_go temp fp steps fs).2 = some fp
        ∧ (download_go temp fp steps fs).1.read fp =
            some (acc ++ (steps.map chunk_data).flatten)) := by
  intro steps
  induction steps with
  | nil =>
    intro fs acc _ hacc
    refine ⟨rfl, ?_⟩
    show ((if (fs.read fp).isSome then fs.unlink fp else fs).rename temp fp).read fp =
      some (acc ++ ([] : List (List Nat)).flatten)
    have hread : (if (fs.read fp).isSome then fs.unlink fp else fs).read temp =
        some acc := by
      split
      · rw [read_unlink_ne fs temp fp hne]
        exact hacc
      · exact hacc
    unfold FS.rename
    rw [hread, read_write_set_self]
    simp
  | cons st rest ih =>
    intro fs acc hall hacc
    obtain ⟨d, rfl⟩ := hall st (List.mem_cons_self st rest)
    have hall2 : ∀ s ∈ rest, ∃ d2, s = DlStep.chunk d2 :=
      fun s hs => hall s (List.mem_cons_of_mem _ hs)
    by_cases hd : d.isEmpty
    · have hdnil : d = [] := List.isEmpty_iff.1 hd
      have heq : download_go temp fp (DlStep.chunk d :: rest) fs =
          download_go temp fp rest fs := by
        simp [download_go, hd]
      rw [heq]
      have hres := ih fs acc hall2 hacc
      refine ⟨hres.1, ?_⟩
      rw [hres.2]
      simp [hdnil, chunk_data]
    · have heq : download_go temp fp (DlStep.chunk d :: rest) fs =
          download_go temp fp rest
            (fs.write_set temp ((fs.read temp).getD [] ++ d)) := by
        simp [download_go, hd]
      rw [heq]
      have hread2 : (fs.write_set temp ((fs.read temp).getD [] ++ d)).read temp =
          some (acc ++ d) := by
        rw [hacc]
        exact read_write_set_self fs temp (acc ++ d)
      have hres := ih _ (acc ++ d) hall2 hread2
      refine ⟨hres.1, ?_⟩
      rw [hres.2]
      simp [chunk_data, List.append_assoc]

/-- C10: a download is atomic at the destination: bytes stream into the
temporary file at the destination path plus ".tmp"; whenever the call
returns no path (request exception, mid-stream exception, or
cancellation) the destination entry is exactly what it was before; a
cancelled run also removes the temporary file; and a fully delivered
stream ends with the destination holding exactly the concatenation of
every chunk, placed there by the rename after the transfer. -/
theorem C10_download_atomic :
    (∀ (fs : FS) (fp : String) (response : Except String (List DlStep)),
        (download fs fp response).2 = none →
        (download fs fp response).1.read fp = fs.read fp)
    ∧ (∀ (fs : FS) (fp : String) (pre rest : List DlStep),
        (∀ s ∈ pre, ∃ d, s = DlStep.chunk d) →
        ((download fs fp (Except.ok (pre ++ DlStep.cancel :: rest))).1.read
            (fp ++ ".tmp") = none
          ∧ (download fs fp (Except.ok (pre ++ DlStep.cancel :: rest))).2 = none))
    ∧ (∀ (fs : FS) (fp : String) (steps : List DlStep),
        (∀ s ∈ steps, ∃ d, s = DlStep.chunk d) →
        ((download fs fp (Except.ok steps)).2 = some fp
          ∧ (download fs fp (Except.ok steps)).1.read fp =
              some ((steps.map chunk_data).flatten))) := by
  refine ⟨?_, ?_, ?_⟩
  · intro fs fp response h
    cases response with
    | error e => rfl
    | ok steps =>
      have heq : download fs fp (Except.ok steps) =
          download_go (fp ++ ".tmp") fp steps (fs.write_set (fp ++ ".tmp") []) := rfl
      rw [heq] at h ⊢
      rw [download_go_fail_dest fp (fp ++ ".tmp") (temp_ne_dest fp) steps _ h]
      exact read_write_set_ne fs fp (fp ++ ".tmp") []
        (fun hh => temp_ne_dest fp hh.symm)
  · intro fs fp pre rest hall
    exact download_go_cancel fp (fp ++ ".tmp") pre rest
      (fs.write_set (fp ++ ".tmp") []) hall
  · intro fs fp steps hall
    have hgo := download_go_success fp (fp ++ ".tmp") (temp_ne_dest fp) steps
      (fs.write_set (fp ++ ".tmp") []) [] hall
      (read_write_set_self fs (fp ++ ".tmp") [])
    have heq : download fs fp (Except.ok steps) =
        download_go (fp ++ ".tmp") fp steps (fs.write_set (fp ++ ".tmp") []) := rfl
    rw [heq]
    exact ⟨hgo.1, by rw [hgo.2]; simp⟩

/-- Witness for C10: a two-chunk stream onto an existing destination,
and a cancelled stream leaving the old destination and no temp file. -/
theorem C10_download_atomic_witness :
    ((download ⟨[("d.exe", [7])]⟩ "d.exe"
        (Except.ok [DlStep.chunk [1, 2], DlStep.chunk [3]])).2 = some "d.exe"
      ∧ (download ⟨[("d.exe", [7])]⟩ "d.exe"
          (Except.ok [DlStep.chunk [1, 2], DlStep.chunk [3]])).1.read "d.exe" =
        some [1, 2, 3])
    ∧ ((download ⟨[("d.exe", [7])]⟩ "d.exe"
        (Except.ok [DlStep.chunk [1, 2], DlStep.cancel])).1.read "d.exe.tmp" = none
      ∧ (download ⟨[("d.exe", [7])]⟩ "d.exe"
          (Except.ok [DlStep.chunk [1, 2], DlStep.cancel])).2 = none) :=
  ⟨C10_download_atomic.2.2 ⟨[("d.exe", [7])]⟩ "d.exe"
      [DlStep.chunk [1, 2], DlStep.chunk [3]]
      (by intro s hs
          simp only [List.mem_cons, List.not_mem_nil, or_false] at hs
          rcases hs with rfl | rfl
          · exact ⟨[1, 2], rfl⟩
          · exact ⟨[3], rfl⟩),
   C10_download_atomic.2.1 ⟨[("d.exe", [7])]⟩ "d.exe"
      [DlStep.chunk [1, 2]] []
      (by intro s hs
          simp only [List.mem_cons, List.not_mem_nil, or_false] at hs
          subst hs
          exact ⟨[1, 2], rfl⟩)⟩
